import Mathlib

/-!
Shallow embedding of the SmartDrive sensor-fusion engine
(`src/software/fusion/sensor_fusion.py`, class `SensorFusion`).

Python floats are modelled as rationals (ℚ); the `float('inf')` sentinel
for `closest_object_distance` is modelled as `Option ℚ` with `none`
standing for +infinity.  Python `deque(maxlen=cap)` is modelled by
`pushBounded`.  Raw sensor dictionaries (whose keys may be absent) are
modelled as structures of `Option` fields, mirroring `dict.get` with its
defaults.  `time.time()` is passed in explicitly as a `now : ℚ` argument.
-/

/-- A detected object as read by `_get_closest_object_distance`: only its
`distance` key is consulted; `none` models an absent key. -/
structure DetectedObject where
  distance : Option ℚ
deriving DecidableEq

/-- Raw argument of `add_vision_data` (a Python dict; `none` = absent key). -/
structure VisionData where
  lane_departure_warning : Option Bool
  collision_warning : Option Bool
  detected_objects : Option (List DetectedObject)
  confidence : Option ℚ
deriving DecidableEq

/-- Raw `behavior_analysis` sub-dict of `add_obd_data`. -/
structure BehaviorAnalysis where
  aggressive_acceleration : Option Bool
  aggressive_braking : Option Bool
  excessive_speed : Option Bool
  engine_stress : Option Bool
deriving DecidableEq

/-- Raw argument of `add_obd_data`. -/
structure ObdData where
  speed : Option ℚ
  rpm : Option ℚ
  throttle_position : Option ℚ
  behavior_analysis : Option BehaviorAnalysis
deriving DecidableEq

/-- Raw argument of `add_fatigue_data`. -/
structure FatigueData where
  fatigue_score : Option ℚ
  blink_detected : Option Bool
  yawn_detected : Option Bool
  ear : Option ℚ
  confidence : Option ℚ
deriving DecidableEq

/-- Entry stored in `vision_buffer` (built in `add_vision_data`). -/
structure VisionEntry where
  timestamp : ℚ
  lane_departure : Bool
  collision_warning : Bool
  objects_detected : ℕ
  closest_object_distance : Option ℚ
  confidence : ℚ
deriving DecidableEq

/-- Entry stored in `obd_buffer` (built in `add_obd_data`). -/
structure ObdEntry where
  timestamp : ℚ
  speed : ℚ
  rpm : ℚ
  throttle_position : ℚ
  aggressive_acceleration : Bool
  aggressive_braking : Bool
  excessive_speed : Bool
  engine_stress : Bool
deriving DecidableEq

/-- Entry stored in `fatigue_buffer` (built in `add_fatigue_data`). -/
structure FatigueEntry where
  timestamp : ℚ
  fatigue_score : ℚ
  blink_detected : Bool
  yawn_detected : Bool
  ear : ℚ
  confidence : ℚ
deriving DecidableEq

/-- The fusion weights dictionary `self.weights`. -/
structure Weights where
  vision : ℚ
  obd : ℚ
  fatigue : ℚ
deriving DecidableEq

/-- The alert thresholds dictionary `self.alert_thresholds`. -/
structure Thresholds where
  collision_risk : ℚ
  lane_departure : ℚ
  driver_fatigue : ℚ
  aggressive_driving : ℚ
deriving DecidableEq

/-- State of a `SensorFusion` instance. Buffers are lists, oldest first,
newest last (matching `deque` append order). -/
structure SensorFusion where
  buffer_size : ℕ
  vision_buffer : List VisionEntry
  obd_buffer : List ObdEntry
  fatigue_buffer : List FatigueEntry
  weights : Weights
  alert_thresholds : Thresholds
deriving DecidableEq

/-- `SensorFusion.__init__(buffer_size)`: empty buffers, default weights
`{vision: 0.5, obd: 0.3, fatigue: 0.2}` and thresholds
`{collision_risk: 0.7, lane_departure: 0.6, driver_fatigue: 0.8,
aggressive_driving: 0.7}`. -/
def SensorFusion.init (buffer_size : ℕ) : SensorFusion :=
  { buffer_size := buffer_size
    vision_buffer := []
    obd_buffer := []
    fatigue_buffer := []
    weights := { vision := 1/2, obd := 3/10, fatigue := 1/5 }
    alert_thresholds :=
      { collision_risk := 7/10, lane_departure := 3/5
        driver_fatigue := 4/5, aggressive_driving := 7/10 } }

/-- Append to a `deque(maxlen=cap)`: add the item at the right end and, if
the capacity is exceeded, discard from the left (oldest first). -/
def pushBounded (cap : ℕ) (xs : List α) (x : α) : List α :=
  let ys := xs ++ [x]
  ys.drop (ys.length - cap)

/-- Minimum of a Python list via `min(..)`; `none` when the list is empty
(the code substitutes `float('inf')` there). -/
def minOfList : List ℚ → Option ℚ
  | [] => none
  | x :: xs => some (xs.foldl min x)

/-- `SensorFusion._get_closest_object_distance`: filter objects by the
truthiness of `obj.get('distance')` (absent key and distance `0` are both
falsy, hence skipped), then take the minimum; `none` models
`float('inf')`. -/
def get_closest_object_distance (vd : VisionData) : Option ℚ :=
  let objects := vd.detected_objects.getD []
  if objects.isEmpty then none
  else
    minOfList (objects.filterMap fun o =>
      match o.distance with
      | some d => if d = 0 then none else some d
      | none => none)

/-- The vision entry built by `add_vision_data` (with `time.time()` = `now`). -/
def mkVisionEntry (now : ℚ) (vd : VisionData) : VisionEntry :=
  { timestamp := now
    lane_departure := vd.lane_departure_warning.getD false
    collision_warning := vd.collision_warning.getD false
    objects_detected := (vd.detected_objects.getD []).length
    closest_object_distance := get_closest_object_distance vd
    confidence := vd.confidence.getD 1 }

/-- `SensorFusion.add_vision_data`. -/
def add_vision_data (now : ℚ) (s : SensorFusion) (vd : VisionData) : SensorFusion :=
  { s with vision_buffer := pushBounded s.buffer_size s.vision_buffer (mkVisionEntry now vd) }

/-- The OBD entry built by `add_obd_data` (with `time.time()` = `now`). -/
def mkObdEntry (now : ℚ) (od : ObdData) : ObdEntry :=
  let behavior := od.behavior_analysis.getD ⟨none, none, none, none⟩
  { timestamp := now
    speed := od.speed.getD 0
    rpm := od.rpm.getD 0
    throttle_position := od.throttle_position.getD 0
    aggressive_acceleration := behavior.aggressive_acceleration.getD false
    aggressive_braking := behavior.aggressive_braking.getD false
    excessive_speed := behavior.excessive_speed.getD false
    engine_stress := behavior.engine_stress.getD false }

/-- `SensorFusion.add_obd_data`. -/
def add_obd_data (now : ℚ) (s : SensorFusion) (od : ObdData) : SensorFusion :=
  { s with obd_buffer := pushBounded s.buffer_size s.obd_buffer (mkObdEntry now od) }

/-- The fatigue entry built by `add_fatigue_data` (with `time.time()` = `now`). -/
def mkFatigueEntry (now : ℚ) (fd : FatigueData) : FatigueEntry :=
  { timestamp := now
    fatigue_score := fd.fatigue_score.getD 0
    blink_detected := fd.blink_detected.getD false
    yawn_detected := fd.yawn_detected.getD false
    ear := fd.ear.getD (3/10)
    confidence := fd.confidence.getD 1 }

/-- `SensorFusion.add_fatigue_data`. -/
def add_fatigue_data (now : ℚ) (s : SensorFusion) (fd : FatigueData) : SensorFusion :=
  { s with fatigue_buffer := pushBounded s.buffer_size s.fatigue_buffer (mkFatigueEntry now fd) }

/-- Vision part of `calculate_collision_risk`: 0.8 for a collision warning
plus `max(0, 1 - distance/20) * 0.6` when the closest distance is finite. -/
def visionRiskOf (v : VisionEntry) : ℚ :=
  (if v.collision_warning then 4/5 else 0) +
    (match v.closest_object_distance with
     | none => 0
     | some d => max 0 (1 - d / 20) * (3/5))

/-- OBD part of `calculate_collision_risk`: `(speed-60)/100 * 0.4` above
60, plus 0.3 for aggressive acceleration or braking. -/
def obdRiskOf (o : ObdEntry) : ℚ :=
  (if 60 < o.speed then (o.speed - 60) / 100 * (2/5) else 0) +
    (if o.aggressive_acceleration || o.aggressive_braking then 3/10 else 0)

/-- `SensorFusion.calculate_collision_risk`: returns 0 when either buffer
is empty; otherwise weights the vision and OBD risks of the latest entries
and caps at 1. -/
def calculate_collision_risk (s : SensorFusion) : ℚ :=
  match s.vision_buffer.getLast?, s.obd_buffer.getLast? with
  | some v, some o =>
      min (visionRiskOf v * s.weights.vision + obdRiskOf o * s.weights.obd) 1
  | _, _ => 0

/-- The scan of `calculate_lane_departure_risk`: walk the buffer
newest-first, stop at the first entry older than 5 seconds, count lane
departures among the rest. -/
def countRecentWarnings (now : ℚ) : List VisionEntry → ℕ
  | [] => 0
  | e :: rest =>
      if 5 < now - e.timestamp then 0
      else (if e.lane_departure then 1 else 0) + countRecentWarnings now rest

/-- `SensorFusion.calculate_lane_departure_risk`. -/
def calculate_lane_departure_risk (now : ℚ) (s : SensorFusion) : ℚ :=
  if s.vision_buffer = [] then 0
  else
    min ((countRecentWarnings now s.vision_buffer.reverse : ℚ) /
      (s.vision_buffer.length : ℚ)) 1

/-- `SensorFusion.calculate_driver_fatigue_risk`. -/
def calculate_driver_fatigue_risk (s : SensorFusion) : ℚ :=
  match s.fatigue_buffer.getLast? with
  | none => 0
  | some latest =>
      let base := latest.fatigue_score / 100
      let recent_yawns := (s.fatigue_buffer.filter fun e => e.yawn_detected).length
      min (if 2 < recent_yawns then base + 1/5 else base) 1

/-- Whether an OBD entry counts as aggressive in
`calculate_aggressive_driving_risk`. -/
def isAggressive (e : ObdEntry) : Bool :=
  e.aggressive_acceleration || e.aggressive_braking ||
    e.excessive_speed || e.engine_stress

/-- `SensorFusion.calculate_aggressive_driving_risk`. -/
def calculate_aggressive_driving_risk (s : SensorFusion) : ℚ :=
  if s.obd_buffer = [] then 0
  else ((s.obd_buffer.filter isAggressive).length : ℚ) / (s.obd_buffer.length : ℚ)

/-- Alert types appended by `generate_comprehensive_assessment`. -/
inductive AlertType where
  | COLLISION_WARNING
  | LANE_DEPARTURE
  | FATIGUE_WARNING
  | AGGRESSIVE_DRIVING
deriving DecidableEq

/-- Alert severities. -/
inductive Severity where
  | HIGH
  | MEDIUM
deriving DecidableEq

/-- An alert dict `{type, severity, message}`. -/
structure Alert where
  type : AlertType
  severity : Severity
  message : String
deriving DecidableEq

/-- The four risks of an assessment. -/
structure RiskSet where
  collision : ℚ
  lane_departure : ℚ
  driver_fatigue : ℚ
  aggressive_driving : ℚ
deriving DecidableEq

/-- The assessment dict returned by `generate_comprehensive_assessment`. -/
structure Assessment where
  timestamp : ℚ
  risks : RiskSet
  alerts : List Alert
  recommendations : List String
  overall_safety_score : ℚ
deriving DecidableEq

/-- The collision alert appended when `risks['collision']` exceeds its
threshold. -/
def collisionAlert : Alert :=
  { type := AlertType.COLLISION_WARNING, severity := Severity.HIGH
    message := "Collision risk detected! Maintain safe distance." }

/-- The lane-departure alert. -/
def laneAlert : Alert :=
  { type := AlertType.LANE_DEPARTURE, severity := Severity.MEDIUM
    message := "Lane departure detected. Return to lane." }

/-- The fatigue alert. -/
def fatigueAlert : Alert :=
  { type := AlertType.FATIGUE_WARNING, severity := Severity.HIGH
    message := "Driver fatigue detected. Take a break." }

/-- The aggressive-driving alert. -/
def aggressiveAlert : Alert :=
  { type := AlertType.AGGRESSIVE_DRIVING, severity := Severity.MEDIUM
    message := "Aggressive driving detected. Drive more calmly." }

/-- The alert-building block of `generate_comprehensive_assessment`: one
strict `>` comparison per domain, alerts appended in source order. -/
def buildAlerts (risks : RiskSet) (th : Thresholds) : List Alert :=
  (if th.collision_risk < risks.collision then [collisionAlert] else []) ++
  (if th.lane_departure < risks.lane_departure then [laneAlert] else []) ++
  (if th.driver_fatigue < risks.driver_fatigue then [fatigueAlert] else []) ++
  (if th.aggressive_driving < risks.aggressive_driving then [aggressiveAlert] else [])

/-- The recommendation-building block of `generate_comprehensive_assessment`. -/
def buildRecommendations (risks : RiskSet) : List String :=
  (if 3/10 < risks.collision then ["Increase following distance"] else []) ++
  (if 1/2 < risks.driver_fatigue then ["Consider taking a break"] else []) ++
  (if 2/5 < risks.aggressive_driving
    then ["Reduce acceleration and maintain steady speed"] else [])

/-- The risk set computed at the top of `generate_comprehensive_assessment`. -/
def riskSetOf (now : ℚ) (s : SensorFusion) : RiskSet :=
  { collision := calculate_collision_risk s
    lane_departure := calculate_lane_departure_risk now s
    driver_fatigue := calculate_driver_fatigue_risk s
    aggressive_driving := calculate_aggressive_driving_risk s }

/-- `SensorFusion.generate_comprehensive_assessment` (with
`time.time()` = `now`). -/
def generate_comprehensive_assessment (now : ℚ) (s : SensorFusion) : Assessment :=
  let risks := riskSetOf now s
  { timestamp := now
    risks := risks
    alerts := buildAlerts risks s.alert_thresholds
    recommendations := buildRecommendations risks
    overall_safety_score :=
      max 0 (100 - (risks.collision * (2/5) + risks.lane_departure * (1/5) +
        risks.driver_fatigue * (3/10) + risks.aggressive_driving * (1/10)) * 100) }

/-- The summary dict of `get_data_summary`. -/
structure Summary where
  vision_entries : ℕ
  obd_entries : ℕ
  fatigue_entries : ℕ
  last_update : ℚ
  fusion_weights : Weights
deriving DecidableEq

/-- `SensorFusion.get_data_summary` as a state transformer: the method
reads `self` and assigns to no attribute, so the state component is the
input state. -/
def get_data_summary (now : ℚ) (s : SensorFusion) : Summary × SensorFusion :=
  ({ vision_entries := s.vision_buffer.length
     obd_entries := s.obd_buffer.length
     fatigue_entries := s.fatigue_buffer.length
     last_update := now
     fusion_weights := s.weights }, s)

/-- `generate_comprehensive_assessment` as a state transformer: the method
builds a fresh dict and assigns to no attribute of `self`, so the state
component is the input state. -/
def generateAssessmentOp (now : ℚ) (s : SensorFusion) : Assessment × SensorFusion :=
  (generate_comprehensive_assessment now s, s)

/-- Argument of `adjust_fusion_weights`: confidences for the three known
sensors (`none` = key absent) plus values under keys that are not in
`self.weights` (they contribute to the total but update nothing). -/
structure SensorConfidence where
  vision : Option ℚ
  obd : Option ℚ
  fatigue : Option ℚ
  other : List ℚ
deriving DecidableEq

/-- `sum(sensor_confidence.values())`. -/
def totalConfidence (c : SensorConfidence) : ℚ :=
  c.vision.getD 0 + c.obd.getD 0 + c.fatigue.getD 0 + c.other.sum

/-- `SensorFusion.adjust_fusion_weights`: when the total confidence is
positive, each sensor present in both the input and `self.weights` gets
`confidence / total`; otherwise nothing changes. -/
def adjust_fusion_weights (s : SensorFusion) (c : SensorConfidence) : SensorFusion :=
  let total := totalConfidence c
  if 0 < total then
    { s with weights :=
      { vision := match c.vision with
          | some v => v / total
          | none => s.weights.vision
        obd := match c.obd with
          | some v => v / total
          | none => s.weights.obd
        fatigue := match c.fatigue with
          | some v => v / total
          | none => s.weights.fatigue } }
  else s

/-! ## Helper lemmas -/

theorem length_pushBounded_le (cap : ℕ) (xs : List α) (x : α) :
    (pushBounded cap xs x).length ≤ cap ∨ (pushBounded cap xs x).length = xs.length + 1 := by
  simp [pushBounded]
  omega

theorem foldl_pushBounded (cap : ℕ) (items : List α) :
    ∀ (xs : List α), xs.length ≤ cap →
      List.foldl (pushBounded cap) xs items =
        (xs ++ items).drop (xs.length + items.length - cap) := by
  induction items with
  | nil =>
      intro xs h
      simp [Nat.sub_eq_zero_of_le h]
  | cons i rest ih =>
      intro xs h
      have hlen : (pushBounded cap xs i).length ≤ cap := by
        simp [pushBounded]
        omega
      rw [List.foldl_cons, ih _ hlen]
      have hn : (xs ++ [i]).length - cap ≤ (xs ++ [i]).length := Nat.sub_le _ _
      show (((xs ++ [i]).drop ((xs ++ [i]).length - cap) ++ rest).drop _) = _
      rw [← List.drop_append_of_le_length hn, List.drop_drop]
      have hbig : (xs ++ [i]) ++ rest = xs ++ i :: rest := by
        simp
      rw [hbig]
      congr 1
      simp [pushBounded]
      omega

theorem getLast?_pushBounded (cap : ℕ) (h : 1 ≤ cap) (xs : List α) (x : α) :
    (pushBounded cap xs x).getLast? = some x := by
  have hn : (xs ++ [x]).length - cap ≤ xs.length := by
    simp
    omega
  show ((xs ++ [x]).drop ((xs ++ [x]).length - cap)).getLast? = some x
  rw [List.drop_append_of_le_length hn, List.getLast?_concat]

/-! ## C5: bounded-history invariant -/

/-- C5: for every sequence of pushes into a history of capacity `cap`, the
resulting history has length at most `cap`, and it consists of exactly the
most recent `cap` pushed items in arrival order (all of them when fewer
than `cap` were pushed): the fold equals `items.drop (items.length - cap)`,
so on overflow the oldest entries are the ones evicted. -/
theorem bounded_history_invariant (cap : ℕ) (items : List α) :
    (List.foldl (pushBounded cap) [] items).length ≤ cap ∧
      List.foldl (pushBounded cap) [] items = items.drop (items.length - cap) := by
  have h := foldl_pushBounded cap items [] (by simp)
  simp only [List.nil_append, List.length_nil, Nat.zero_add] at h
  refine ⟨?_, h⟩
  rw [h, List.length_drop]
  omega

/-! ## C6: empty-state assessment -/

/-- C6: on a freshly constructed engine (all histories empty),
`generate_comprehensive_assessment` returns all four risks 0, no alerts,
no recommendations, and an overall safety score of exactly 100. -/
theorem empty_state_assessment (now : ℚ) (n : ℕ) :
    (generate_comprehensive_assessment now (SensorFusion.init n)).risks =
        ⟨0, 0, 0, 0⟩ ∧
    (generate_comprehensive_assessment now (SensorFusion.init n)).alerts = [] ∧
    (generate_comprehensive_assessment now (SensorFusion.init n)).recommendations = [] ∧
    (generate_comprehensive_assessment now (SensorFusion.init n)).overall_safety_score = 100 := by
  have hrisks : riskSetOf now (SensorFusion.init n) = ⟨0, 0, 0, 0⟩ := by
    simp [riskSetOf, calculate_collision_risk, calculate_lane_departure_risk,
      calculate_driver_fatigue_risk, calculate_aggressive_driving_risk, SensorFusion.init]
  refine ⟨hrisks, ?_, ?_, ?_⟩
  · simp only [generate_comprehensive_assessment, hrisks]
    norm_num [buildAlerts, SensorFusion.init]
  · simp only [generate_comprehensive_assessment, hrisks]
    norm_num [buildRecommendations]
  · simp only [generate_comprehensive_assessment, hrisks]
    norm_num

/-! ## C1: collision risk with one empty history -/

/-- Latest vision entry of the C1 counterexample state: a collision
warning with no detected objects. -/
def vWarnEntry : VisionEntry :=
  { timestamp := 0, lane_departure := false, collision_warning := true
    objects_detected := 0, closest_object_distance := none, confidence := 1 }

/-- C1 counterexample state: non-empty vision history, empty OBD history,
default weights. -/
def sC1 : SensorFusion :=
  { SensorFusion.init 10 with vision_buffer := [vWarnEntry] }

/-- C1 counterexample: with a non-empty vision history (latest entry
carrying a collision warning) and an empty OBD history, the code returns
collision risk 0, not the claimed
`clamp(visionRisk * weights.vision, 0, 1) = 2/5`. -/
theorem collision_one_empty_counterexample :
    sC1.vision_buffer ≠ [] ∧ sC1.obd_buffer = [] ∧
    calculate_collision_risk sC1 = 0 ∧
    min (max (visionRiskOf vWarnEntry * sC1.weights.vision) 0) 1 = 2/5 ∧
    (0 : ℚ) ≠ 2/5 := by
  refine ⟨by simp [sC1], rfl, rfl, ?_, by norm_num⟩
  have h : visionRiskOf vWarnEntry * sC1.weights.vision = 2/5 := by
    simp [visionRiskOf, vWarnEntry, sC1, SensorFusion.init]
    norm_num
  rw [h]
  norm_num

/-- C1 (amended): if either the vision history or the OBD history is
empty, `calculate_collision_risk` returns 0 outright — the non-empty
history contributes nothing. -/
theorem collision_risk_zero_of_empty (s : SensorFusion)
    (h : s.vision_buffer = [] ∨ s.obd_buffer = []) :
    calculate_collision_risk s = 0 := by
  rcases h with h | h
  · cases ho : s.obd_buffer.getLast? <;>
      simp [calculate_collision_risk, h, ho]
  · cases hv : s.vision_buffer.getLast? <;>
      simp [calculate_collision_risk, h, hv]

/-- Witness for C1's amended theorem at a concrete state. -/
theorem collision_risk_zero_of_empty_witness :
    ((SensorFusion.init 10).vision_buffer = [] ∨
      (SensorFusion.init 10).obd_buffer = []) ∧
    calculate_collision_risk (SensorFusion.init 10) = 0 :=
  ⟨Or.inl rfl, collision_risk_zero_of_empty (SensorFusion.init 10) (Or.inl rfl)⟩

/-! ## C2: ingestion and validation -/

/-- A malformed vision sample: confidence 5 lies outside [0,1]. -/
def badVisionData : VisionData :=
  { lane_departure_warning := none, collision_warning := none
    detected_objects := none, confidence := some 5 }

/-- C2 counterexample: an out-of-range sample is not rejected — the
ingest call appends it (the history changes), there is no `InvalidSample`
failure anywhere in the code (the operations are total functions into
`SensorFusion`). -/
theorem ingest_validation_counterexample :
    (add_vision_data 0 (SensorFusion.init 10) badVisionData).vision_buffer =
      [mkVisionEntry 0 badVisionData] ∧
    (mkVisionEntry 0 badVisionData).confidence = 5 ∧
    ¬ ((mkVisionEntry 0 badVisionData).confidence ≤ 1) ∧
    (add_vision_data 0 (SensorFusion.init 10) badVisionData).vision_buffer ≠
      (SensorFusion.init 10).vision_buffer := by
  refine ⟨rfl, rfl, by norm_num [mkVisionEntry, badVisionData], by simp [add_vision_data, SensorFusion.init, pushBounded]⟩

/-- C2 (amended): ingestion never fails and performs no validation: every
sample — malformed or not — is appended as the new latest entry of its
own history, and the other histories, the weights and the thresholds are
left unchanged. -/
theorem ingest_total_appends (now : ℚ) (s : SensorFusion) (h : 1 ≤ s.buffer_size)
    (vd : VisionData) (od : ObdData) (fd : FatigueData) :
    (add_vision_data now s vd).vision_buffer.getLast? = some (mkVisionEntry now vd) ∧
    (add_vision_data now s vd).obd_buffer = s.obd_buffer ∧
    (add_vision_data now s vd).fatigue_buffer = s.fatigue_buffer ∧
    (add_vision_data now s vd).weights = s.weights ∧
    (add_vision_data now s vd).alert_thresholds = s.alert_thresholds ∧
    (add_obd_data now s od).obd_buffer.getLast? = some (mkObdEntry now od) ∧
    (add_obd_data now s od).vision_buffer = s.vision_buffer ∧
    (add_obd_data now s od).fatigue_buffer = s.fatigue_buffer ∧
    (add_obd_data now s od).weights = s.weights ∧
    (add_obd_data now s od).alert_thresholds = s.alert_thresholds ∧
    (add_fatigue_data now s fd).fatigue_buffer.getLast? = some (mkFatigueEntry now fd) ∧
    (add_fatigue_data now s fd).vision_buffer = s.vision_buffer ∧
    (add_fatigue_data now s fd).obd_buffer = s.obd_buffer ∧
    (add_fatigue_data now s fd).weights = s.weights ∧
    (add_fatigue_data now s fd).alert_thresholds = s.alert_thresholds :=
  ⟨getLast?_pushBounded _ h _ _, rfl, rfl, rfl, rfl,
   getLast?_pushBounded _ h _ _, rfl, rfl, rfl, rfl,
   getLast?_pushBounded _ h _ _, rfl, rfl, rfl, rfl⟩

/-- Witness for C2's amended theorem: a concrete ingest call (including
the malformed sample) appends and changes nothing else. -/
theorem ingest_total_appends_witness :
    1 ≤ (SensorFusion.init 10).buffer_size ∧
    (add_vision_data 0 (SensorFusion.init 10) badVisionData).vision_buffer.getLast? =
      some (mkVisionEntry 0 badVisionData) :=
  ⟨by norm_num [SensorFusion.init],
   (ingest_total_appends 0 (SensorFusion.init 10) (by norm_num [SensorFusion.init])
      badVisionData ⟨none, none, none, none⟩ ⟨none, none, none, none, none⟩).1⟩

/-! ## C3: weight normalization -/

/-- C3 counterexample: the confidence mapping `{vision: 1}` has positive
total, yet after `adjust_fusion_weights` the three weights sum to 3/2 —
the sensors absent from the input keep their old weights, so the sum is
not 1 within 1e-6. -/
theorem adjust_weights_sum_counterexample :
    totalConfidence ⟨some 1, none, none, []⟩ = 1 ∧
    (0 : ℚ) < 1 ∧
    ((adjust_fusion_weights (SensorFusion.init 10) ⟨some 1, none, none, []⟩).weights.vision +
      (adjust_fusion_weights (SensorFusion.init 10) ⟨some 1, none, none, []⟩).weights.obd +
      (adjust_fusion_weights (SensorFusion.init 10) ⟨some 1, none, none, []⟩).weights.fatigue) = 3/2 ∧
    ¬ (|(3/2 : ℚ) - 1| ≤ 1/1000000) := by
  refine ⟨by norm_num [totalConfidence], by norm_num, ?_, by rw [abs_of_nonneg] <;> norm_num⟩
  norm_num [adjust_fusion_weights, totalConfidence, SensorFusion.init]

/-- C3 (amended): when the confidence mapping covers exactly the three
sensors (all of `vision`, `obd`, `fatigue` present, no foreign keys) and
has positive total, the post-adjustment weights sum to exactly 1 (hence
within 1e-6 of 1); for any mapping whose total is ≤ 0 the weights — and
the whole state — are left exactly unchanged. -/
theorem adjust_weights_normalizes :
    (∀ (s : SensorFusion) (cv co cf : ℚ), 0 < cv + co + cf →
      ((adjust_fusion_weights s ⟨some cv, some co, some cf, []⟩).weights.vision +
        (adjust_fusion_weights s ⟨some cv, some co, some cf, []⟩).weights.obd +
        (adjust_fusion_weights s ⟨some cv, some co, some cf, []⟩).weights.fatigue) = 1) ∧
    (∀ (s : SensorFusion) (c : SensorConfidence), totalConfidence c ≤ 0 →
      adjust_fusion_weights s c = s) := by
  constructor
  · intro s cv co cf h
    have ht : totalConfidence ⟨some cv, some co, some cf, []⟩ = cv + co + cf := by
      simp [totalConfidence]
    simp only [adjust_fusion_weights, ht, if_pos h]
    field_simp
  · intro s c h
    simp [adjust_fusion_weights, not_lt.mpr h]

/-- Witness for C3's amended theorem at concrete inputs. -/
theorem adjust_weights_normalizes_witness :
    ((0 : ℚ) < 1 + 2 + 1 ∧
      ((adjust_fusion_weights (SensorFusion.init 10) ⟨some 1, some 2, some 1, []⟩).weights.vision +
        (adjust_fusion_weights (SensorFusion.init 10) ⟨some 1, some 2, some 1, []⟩).weights.obd +
        (adjust_fusion_weights (SensorFusion.init 10) ⟨some 1, some 2, some 1, []⟩).weights.fatigue) = 1) ∧
    (totalConfidence ⟨some 0, some 0, some 0, []⟩ ≤ 0 ∧
      adjust_fusion_weights (SensorFusion.init 10) ⟨some 0, some 0, some 0, []⟩ =
        SensorFusion.init 10) :=
  ⟨⟨by norm_num,
    adjust_weights_normalizes.1 (SensorFusion.init 10) 1 2 1 (by norm_num)⟩,
   ⟨by norm_num [totalConfidence],
    adjust_weights_normalizes.2 (SensorFusion.init 10) ⟨some 0, some 0, some 0, []⟩
      (by norm_num [totalConfidence])⟩⟩

/-! ## C4: weight non-negativity -/

/-- C4 counterexample: the confidence mapping `{vision: -1, obd: 3}` has
positive total 2, and `adjust_fusion_weights` makes the vision weight
-1/2, breaking non-negativity from the initial (non-negative) state. -/
theorem weights_nonneg_counterexample :
    (0 : ℚ) ≤ (SensorFusion.init 10).weights.vision ∧
    (0 : ℚ) ≤ (SensorFusion.init 10).weights.obd ∧
    (0 : ℚ) ≤ (SensorFusion.init 10).weights.fatigue ∧
    (adjust_fusion_weights (SensorFusion.init 10) ⟨some (-1), some 3, none, []⟩).weights.vision < 0 := by
  refine ⟨by norm_num [SensorFusion.init], by norm_num [SensorFusion.init],
    by norm_num [SensorFusion.init], ?_⟩
  norm_num [adjust_fusion_weights, totalConfidence, SensorFusion.init]

/-- C4 (amended): the initial weights are non-negative, the ingest
operations never touch the weights, and `adjust_fusion_weights` preserves
non-negativity of all three weights whenever the supplied per-sensor
confidences are non-negative (for arbitrary foreign keys); so every state
reachable using only non-negative confidences has non-negative weights. -/
theorem weights_nonneg_preserved :
    ((∀ n : ℕ, 0 ≤ (SensorFusion.init n).weights.vision ∧
        0 ≤ (SensorFusion.init n).weights.obd ∧
        0 ≤ (SensorFusion.init n).weights.fatigue) ∧
      (∀ (now : ℚ) (s : SensorFusion) (vd : VisionData),
        (add_vision_data now s vd).weights = s.weights) ∧
      (∀ (now : ℚ) (s : SensorFusion) (od : ObdData),
        (add_obd_data now s od).weights = s.weights) ∧
      (∀ (now : ℚ) (s : SensorFusion) (fd : FatigueData),
        (add_fatigue_data now s fd).weights = s.weights)) ∧
    (∀ (s : SensorFusion) (c : SensorConfidence),
      0 ≤ s.weights.vision → 0 ≤ s.weights.obd → 0 ≤ s.weights.fatigue →
      (∀ v, c.vision = some v → 0 ≤ v) →
      (∀ v, c.obd = some v → 0 ≤ v) →
      (∀ v, c.fatigue = some v → 0 ≤ v) →
      0 ≤ (adjust_fusion_weights s c).weights.vision ∧
        0 ≤ (adjust_fusion_weights s c).weights.obd ∧
        0 ≤ (adjust_fusion_weights s c).weights.fatigue) := by
  refine ⟨⟨fun n => ⟨by norm_num [SensorFusion.init], by norm_num [SensorFusion.init],
    by norm_num [SensorFusion.init]⟩, fun _ _ _ => rfl, fun _ _ _ => rfl, fun _ _ _ => rfl⟩, ?_⟩
  intro s c hv ho hf hcv hco hcf
  by_cases ht : 0 < totalConfidence c
  · simp only [adjust_fusion_weights, if_pos ht]
    refine ⟨?_, ?_, ?_⟩
    · cases hc : c.vision with
      | none => simpa [hc] using hv
      | some v => simp only [hc]; exact div_nonneg (hcv v hc) (le_of_lt ht)
    · cases hc : c.obd with
      | none => simpa [hc] using ho
      | some v => simp only [hc]; exact div_nonneg (hco v hc) (le_of_lt ht)
    · cases hc : c.fatigue with
      | none => simpa [hc] using hf
      | some v => simp only [hc]; exact div_nonneg (hcf v hc) (le_of_lt ht)
  · simp only [adjust_fusion_weights, if_neg ht]
    exact ⟨hv, ho, hf⟩

/-- Witness for C4's amended theorem at a concrete call. -/
theorem weights_nonneg_preserved_witness :
    0 ≤ (adjust_fusion_weights (SensorFusion.init 10) ⟨some 1, some 1, some 2, []⟩).weights.vision ∧
    0 ≤ (adjust_fusion_weights (SensorFusion.init 10) ⟨some 1, some 1, some 2, []⟩).weights.obd ∧
    0 ≤ (adjust_fusion_weights (SensorFusion.init 10) ⟨some 1, some 1, some 2, []⟩).weights.fatigue :=
  weights_nonneg_preserved.2 (SensorFusion.init 10) ⟨some 1, some 1, some 2, []⟩
    (by norm_num [SensorFusion.init]) (by norm_num [SensorFusion.init])
    (by norm_num [SensorFusion.init])
    (fun v hv => by simp at hv; simp [← hv])
    (fun v hv => by simp at hv; simp [← hv])
    (fun v hv => by simp at hv; simp [← hv])

/-! ## C7: alert threshold edge -/

/-- Number of alerts of a given type in a list. -/
def countType (t : AlertType) (l : List Alert) : ℕ :=
  (l.filter fun a => a.type == t).length

theorem mem_buildAlerts (risks : RiskSet) (th : Thresholds) (a : Alert) :
    a ∈ buildAlerts risks th →
      a = collisionAlert ∨ a = laneAlert ∨ a = fatigueAlert ∨ a = aggressiveAlert := by
  unfold buildAlerts
  split_ifs <;> simp <;> tauto

/-- C7: for each of the four risk domains, `buildAlerts` (the alert block
of `generate_comprehensive_assessment`, which uses strict `>`) emits
exactly one alert for that domain when its risk strictly exceeds its
threshold and none otherwise — in particular none when the risk equals
the threshold — and every emitted alert of a given type carries the
documented severity (collision HIGH, lane departure MEDIUM, fatigue HIGH,
aggressive driving MEDIUM) and fixed message; the assessment's alert list
is exactly this block applied to the computed risks and the live
thresholds. -/
theorem alert_threshold_edge (risks : RiskSet) (th : Thresholds) :
    (countType AlertType.COLLISION_WARNING (buildAlerts risks th) =
        if th.collision_risk < risks.collision then 1 else 0) ∧
    (countType AlertType.LANE_DEPARTURE (buildAlerts risks th) =
        if th.lane_departure < risks.lane_departure then 1 else 0) ∧
    (countType AlertType.FATIGUE_WARNING (buildAlerts risks th) =
        if th.driver_fatigue < risks.driver_fatigue then 1 else 0) ∧
    (countType AlertType.AGGRESSIVE_DRIVING (buildAlerts risks th) =
        if th.aggressive_driving < risks.aggressive_driving then 1 else 0) ∧
    (risks.collision = th.collision_risk →
      countType AlertType.COLLISION_WARNING (buildAlerts risks th) = 0) ∧
    (risks.lane_departure = th.lane_departure →
      countType AlertType.LANE_DEPARTURE (buildAlerts risks th) = 0) ∧
    (risks.driver_fatigue = th.driver_fatigue →
      countType AlertType.FATIGUE_WARNING (buildAlerts risks th) = 0) ∧
    (risks.aggressive_driving = th.aggressive_driving →
      countType AlertType.AGGRESSIVE_DRIVING (buildAlerts risks th) = 0) ∧
    (∀ a ∈ buildAlerts risks th,
      (a.type = AlertType.COLLISION_WARNING → a.severity = Severity.HIGH ∧
        a.message = "Collision risk detected! Maintain safe distance.") ∧
      (a.type = AlertType.LANE_DEPARTURE → a.severity = Severity.MEDIUM ∧
        a.message = "Lane departure detected. Return to lane.") ∧
      (a.type = AlertType.FATIGUE_WARNING → a.severity = Severity.HIGH ∧
        a.message = "Driver fatigue detected. Take a break.") ∧
      (a.type = AlertType.AGGRESSIVE_DRIVING → a.severity = Severity.MEDIUM ∧
        a.message = "Aggressive driving detected. Drive more calmly.")) ∧
    (∀ (now : ℚ) (s : SensorFusion),
      (generate_comprehensive_assessment now s).alerts =
        buildAlerts (riskSetOf now s) s.alert_thresholds) := by
  have hc : countType AlertType.COLLISION_WARNING (buildAlerts risks th) =
      if th.collision_risk < risks.collision then 1 else 0 := by
    unfold buildAlerts countType
    split_ifs <;> rfl
  have hl : countType AlertType.LANE_DEPARTURE (buildAlerts risks th) =
      if th.lane_departure < risks.lane_departure then 1 else 0 := by
    unfold buildAlerts countType
    split_ifs <;> rfl
  have hf : countType AlertType.FATIGUE_WARNING (buildAlerts risks th) =
      if th.driver_fatigue < risks.driver_fatigue then 1 else 0 := by
    unfold buildAlerts countType
    split_ifs <;> rfl
  have ha : countType AlertType.AGGRESSIVE_DRIVING (buildAlerts risks th) =
      if th.aggressive_driving < risks.aggressive_driving then 1 else 0 := by
    unfold buildAlerts countType
    split_ifs <;> rfl
  refine ⟨hc, hl, hf, ha, ?_, ?_, ?_, ?_, ?_, fun _ _ => rfl⟩
  · intro he
    rw [hc, if_neg (by rw [he]; exact lt_irrefl _)]
  · intro he
    rw [hl, if_neg (by rw [he]; exact lt_irrefl _)]
  · intro he
    rw [hf, if_neg (by rw [he]; exact lt_irrefl _)]
  · intro he
    rw [ha, if_neg (by rw [he]; exact lt_irrefl _)]
  · intro a ha2
    rcases mem_buildAlerts risks th a ha2 with rfl | rfl | rfl | rfl <;>
      refine ⟨?_, ?_, ?_, ?_⟩ <;> intro hty <;>
      first
        | exact ⟨rfl, rfl⟩
        | simp [collisionAlert, laneAlert, fatigueAlert, aggressiveAlert] at hty

/-- Witness for C7: with the default thresholds, a collision risk exactly
at 0.7 yields no collision alert, while 0.71 yields exactly one. -/
theorem alert_threshold_edge_witness :
    countType AlertType.COLLISION_WARNING
        (buildAlerts ⟨7/10, 0, 0, 0⟩ (SensorFusion.init 10).alert_thresholds) = 0 ∧
    countType AlertType.COLLISION_WARNING
        (buildAlerts ⟨71/100, 0, 0, 0⟩ (SensorFusion.init 10).alert_thresholds) = 1 := by
  constructor
  · exact (alert_threshold_edge ⟨7/10, 0, 0, 0⟩ (SensorFusion.init 10).alert_thresholds).2.2.2.2.1 rfl
  · rw [(alert_threshold_edge ⟨71/100, 0, 0, 0⟩ (SensorFusion.init 10).alert_thresholds).1]
    norm_num [SensorFusion.init]

/-! ## C8: collision-risk monotonicity -/

theorem collision_risk_eq (s : SensorFusion) (v : VisionEntry) (o : ObdEntry)
    (hv : s.vision_buffer.getLast? = some v) (ho : s.obd_buffer.getLast? = some o) :
    calculate_collision_risk s =
      min (visionRiskOf v * s.weights.vision + obdRiskOf o * s.weights.obd) 1 := by
  simp [calculate_collision_risk, hv, ho]

/-- Vision entry with no warning and a given finite closest distance. -/
def vDist (d : ℚ) : VisionEntry :=
  { timestamp := 0, lane_departure := false, collision_warning := false
    objects_detected := 1, closest_object_distance := some d, confidence := 1 }

/-- C8 counterexample state: one vision entry at distance `d`, an empty
OBD history, default weights. -/
def sNoObd (d : ℚ) : SensorFusion :=
  { SensorFusion.init 10 with vision_buffer := [vDist d] }

/-- C8 counterexample: with the OBD history empty (everything else fixed,
default weights), decreasing the closest object distance from 10 m to 5 m
leaves the collision risk constant at 0 — it does not strictly increase
and it is not capped at 1. -/
theorem collision_monotone_counterexample :
    (0 : ℚ) ≤ 5 ∧ (5 : ℚ) < 10 ∧ (10 : ℚ) ≤ 20 ∧
    (sNoObd 5).weights = (sNoObd 10).weights ∧
    (sNoObd 5).vision_buffer.getLast? = some (vDist 5) ∧
    (sNoObd 10).vision_buffer.getLast? = some (vDist 10) ∧
    calculate_collision_risk (sNoObd 5) = calculate_collision_risk (sNoObd 10) ∧
    calculate_collision_risk (sNoObd 5) = 0 ∧
    calculate_collision_risk (sNoObd 5) ≠ 1 := by
  refine ⟨by norm_num, by norm_num, by norm_num, rfl, rfl, rfl, rfl, rfl, ?_⟩
  rw [show calculate_collision_risk (sNoObd 5) = 0 from rfl]
  norm_num

/-- C8 (amended): provided both the vision and OBD histories are non-empty
and the vision weight is positive, decreasing the latest entry's closest
object distance within [0, 20] m (all other fields, the OBD latest entry
and the weights held fixed) strictly increases the collision risk unless
both values are capped at 1; and with a non-negative vision weight, a
latest vision entry with `collision_warning = true` never yields a lower
collision risk than the identical entry with it false. -/
theorem collision_risk_monotone :
    (∀ (s₁ s₂ : SensorFusion) (v : VisionEntry) (o : ObdEntry) (d₁ d₂ : ℚ),
      s₁.weights = s₂.weights → 0 < s₁.weights.vision →
      s₁.vision_buffer.getLast? = some { v with closest_object_distance := some d₁ } →
      s₂.vision_buffer.getLast? = some { v with closest_object_distance := some d₂ } →
      s₁.obd_buffer.getLast? = some o → s₂.obd_buffer.getLast? = some o →
      0 ≤ d₁ → d₁ < d₂ → d₂ ≤ 20 →
        calculate_collision_risk s₂ < calculate_collision_risk s₁ ∨
          (calculate_collision_risk s₁ = 1 ∧ calculate_collision_risk s₂ = 1)) ∧
    (∀ (s₁ s₂ : SensorFusion) (v : VisionEntry) (o : ObdEntry),
      s₁.weights = s₂.weights → 0 ≤ s₁.weights.vision →
      s₁.vision_buffer.getLast? = some { v with collision_warning := true } →
      s₂.vision_buffer.getLast? = some { v with collision_warning := false } →
      s₁.obd_buffer.getLast? = some o → s₂.obd_buffer.getLast? = some o →
        calculate_collision_risk s₂ ≤ calculate_collision_risk s₁) := by
  constructor
  · intro s₁ s₂ v o d₁ d₂ hw hwv h1 h2 ho1 ho2 hd0 hdlt hd20
    rw [collision_risk_eq s₁ _ _ h1 ho1, collision_risk_eq s₂ _ _ h2 ho2, ← hw]
    have e1 : visionRiskOf { v with closest_object_distance := some d₁ } =
        (if v.collision_warning then (4 : ℚ)/5 else 0) + (1 - d₁ / 20) * (3/5) := by
      simp only [visionRiskOf]
      rw [max_eq_right (by linarith)]
    have e2 : visionRiskOf { v with closest_object_distance := some d₂ } =
        (if v.collision_warning then (4 : ℚ)/5 else 0) + (1 - d₂ / 20) * (3/5) := by
      simp only [visionRiskOf]
      rw [max_eq_right (by linarith)]
    rw [e1, e2]
    set b := if v.collision_warning then (4 : ℚ)/5 else 0 with hb
    set wv := s₁.weights.vision with hwvdef
    set wo := s₁.weights.obd with hwodef
    set r := obdRiskOf o with hr
    have hvr : b + (1 - d₂ / 20) * (3/5) < b + (1 - d₁ / 20) * (3/5) := by linarith
    have hx : (b + (1 - d₂ / 20) * (3/5)) * wv + r * wo <
        (b + (1 - d₁ / 20) * (3/5)) * wv + r * wo := by
      have := mul_lt_mul_of_pos_right hvr hwv
      linarith
    rcases le_or_lt 1 ((b + (1 - d₂ / 20) * (3/5)) * wv + r * wo) with hge | hlt
    · exact Or.inr ⟨min_eq_right (le_trans hge (le_of_lt hx)), min_eq_right hge⟩
    · refine Or.inl ?_
      rw [min_eq_left (le_of_lt hlt)]
      exact lt_min hx hlt
  · intro s₁ s₂ v o hw hwv h1 h2 ho1 ho2
    rw [collision_risk_eq s₁ _ _ h1 ho1, collision_risk_eq s₂ _ _ h2 ho2, ← hw]
    refine min_le_min ?_ le_rfl
    have hvr : visionRiskOf { v with collision_warning := false } ≤
        visionRiskOf { v with collision_warning := true } := by
      simp [visionRiskOf]
      linarith
    have := mul_le_mul_of_nonneg_right hvr hwv
    linarith

/-- Idle OBD entry for the C8 witness. -/
def oIdle : ObdEntry :=
  { timestamp := 0, speed := 0, rpm := 0, throttle_position := 0
    aggressive_acceleration := false, aggressive_braking := false
    excessive_speed := false, engine_stress := false }

/-- C8 witness state: one vision entry at distance `d` and one idle OBD
entry, default weights. -/
def sMono (d : ℚ) : SensorFusion :=
  { SensorFusion.init 10 with vision_buffer := [vDist d], obd_buffer := [oIdle] }

/-- Witness for C8's amended theorem at concrete states. -/
theorem collision_risk_monotone_witness :
    (calculate_collision_risk (sMono 10) < calculate_collision_risk (sMono 5) ∨
      (calculate_collision_risk (sMono 5) = 1 ∧ calculate_collision_risk (sMono 10) = 1)) ∧
    calculate_collision_risk (sMono 10) ≤
      calculate_collision_risk
        { sMono 10 with vision_buffer := [{ vDist 10 with collision_warning := true }] } := by
  constructor
  · exact collision_risk_monotone.1 (sMono 5) (sMono 10) (vDist 5) oIdle 5 10 rfl
      (by norm_num [sMono, SensorFusion.init]) rfl rfl rfl rfl
      (by norm_num) (by norm_num) (by norm_num)
  · exact collision_risk_monotone.2
      { sMono 10 with vision_buffer := [{ vDist 10 with collision_warning := true }] }
      (sMono 10) (vDist 10) oIdle rfl
      (by norm_num [sMono, SensorFusion.init]) rfl rfl rfl rfl

/-! ## C9: assessment and summary are read-only -/

/-- C9: `generate_comprehensive_assessment` and `get_data_summary` leave
the engine state — the three histories, the fusion weights and the alert
thresholds — exactly unchanged: their method bodies assign to no
attribute of `self`, so their state component is the input state. -/
theorem assessment_summary_readonly (now : ℚ) (s : SensorFusion) :
    (generateAssessmentOp now s).2 = s ∧
    (generateAssessmentOp now s).2.vision_buffer = s.vision_buffer ∧
    (generateAssessmentOp now s).2.obd_buffer = s.obd_buffer ∧
    (generateAssessmentOp now s).2.fatigue_buffer = s.fatigue_buffer ∧
    (generateAssessmentOp now s).2.weights = s.weights ∧
    (generateAssessmentOp now s).2.alert_thresholds = s.alert_thresholds ∧
    (get_data_summary now s).2 = s ∧
    (get_data_summary now s).2.vision_buffer = s.vision_buffer ∧
    (get_data_summary now s).2.obd_buffer = s.obd_buffer ∧
    (get_data_summary now s).2.fatigue_buffer = s.fatigue_buffer ∧
    (get_data_summary now s).2.weights = s.weights ∧
    (get_data_summary now s).2.alert_thresholds = s.alert_thresholds :=
  ⟨rfl, rfl, rfl, rfl, rfl, rfl, rfl, rfl, rfl, rfl, rfl, rfl⟩

/-! ## C10: closest-object-distance extraction -/

/-- The filter body of `_get_closest_object_distance`. -/
def distanceFilter (o : DetectedObject) : Option ℚ :=
  match o.distance with
  | some d => if d = 0 then none else some d
  | none => none

theorem get_closest_eq_filterMap (vd : VisionData) :
    get_closest_object_distance vd =
      if (vd.detected_objects.getD []).isEmpty then none
      else minOfList ((vd.detected_objects.getD []).filterMap distanceFilter) := rfl

/-- C10: an object whose `distance` is missing or exactly 0 is excluded
from the closest-distance computation (removing it changes nothing); if
every object is excluded — or there are none — the closest distance is
the infinity sentinel (`none`); and with that sentinel the distance term
of the vision risk contributes nothing, leaving only the
collision-warning term. -/
theorem closest_distance_excludes_zero_and_missing :
    (∀ (objs₁ objs₂ : List DetectedObject) (o : DetectedObject)
        (l c : Option Bool) (conf : Option ℚ),
      (o.distance = none ∨ o.distance = some 0) →
      get_closest_object_distance ⟨l, c, some (objs₁ ++ o :: objs₂), conf⟩ =
        get_closest_object_distance ⟨l, c, some (objs₁ ++ objs₂), conf⟩) ∧
    (∀ vd : VisionData,
      (∀ o ∈ vd.detected_objects.getD [], o.distance = none ∨ o.distance = some 0) →
      get_closest_object_distance vd = none) ∧
    (∀ v : VisionEntry, v.closest_object_distance = none →
      visionRiskOf v = if v.collision_warning then 4/5 else 0) := by
  refine ⟨?_, ?_, ?_⟩
  · intro objs₁ objs₂ o l c conf ho
    have hf : distanceFilter o = none := by
      rcases ho with h | h <;> simp [distanceFilter, h]
    rw [get_closest_eq_filterMap, get_closest_eq_filterMap]
    simp only [Option.getD_some]
    cases h2 : (objs₁ ++ objs₂).isEmpty with
    | true =>
        obtain ⟨ha, hb⟩ := List.append_eq_nil.mp (List.isEmpty_iff.mp h2)
        subst ha
        subst hb
        simp [hf, minOfList]
    | false =>
        have hne1 : (objs₁ ++ o :: objs₂).isEmpty = false := by
          rw [List.isEmpty_eq_false]
          simp
        rw [hne1]
        simp only [Bool.false_eq_true, if_false]
        rw [List.filterMap_append, List.filterMap_append,
          List.filterMap_cons_none hf]
  · intro vd h
    have hnil : (vd.detected_objects.getD []).filterMap distanceFilter = [] := by
      rw [List.filterMap_eq_nil_iff]
      intro o ho
      rcases h o ho with h1 | h1 <;> simp [distanceFilter, h1]
    rw [get_closest_eq_filterMap, hnil]
    split <;> rfl
  · intro v h
    simp [visionRiskOf, h]

/-- Witness for C10 at concrete inputs: a single object reported at
exactly 0 m gives the infinity sentinel, removing it changes nothing,
and the sentinel adds no distance risk. -/
theorem closest_distance_witness :
    get_closest_object_distance ⟨none, none, some [⟨some 0⟩], none⟩ = none ∧
    get_closest_object_distance ⟨none, none, some ([] ++ ⟨some 0⟩ :: []), none⟩ =
      get_closest_object_distance ⟨none, none, some ([] ++ []), none⟩ ∧
    visionRiskOf (mkVisionEntry 0 ⟨none, none, some [⟨some 0⟩], none⟩) =
      if (mkVisionEntry 0 ⟨none, none, some [⟨some 0⟩], none⟩).collision_warning
        then 4/5 else 0 := by
  refine ⟨?_, ?_, ?_⟩
  · exact closest_distance_excludes_zero_and_missing.2.1 _
      (by intro o ho; simp at ho; simp [ho])
  · exact closest_distance_excludes_zero_and_missing.1 [] [] ⟨some 0⟩ none none none
      (Or.inr rfl)
  · exact closest_distance_excludes_zero_and_missing.2.2 _ rfl
